import Mathlib

/-!
Verification of the Glow Index Engine of `chromasky_toolkit`.

The Python sources (`glow_index.py`, `astronomy.py`) are shallowly embedded
below.  Pure numeric code is translated to rational arithmetic (`ℚ`); the
spherical trigonometry of the geodesic projector is translated to real
arithmetic (`ℝ`).  External effects — xarray interpolation of the weather
fields, the `ephem` astronomical solver, and the process pool — are modelled
as explicit oracle functions passed to the embedded definitions; exceptions
raised by the Python code are modelled with `Except`, and exceptions raised
by an oracle are modelled by the oracle returning `Except.error`.
-/

namespace Chromasky

/-! ## Tunable class constants of `GlowIndexCalculator` -/

def CLOUD_THRESHOLD : ℚ := 1/10

def MAX_SEARCH_DISTANCE_KM : ℚ := 500

def SEARCH_STEP_KM : ℚ := 10

def OPTIMAL_DISTANCE_KM : ℚ := 400

def CLOUD_ZERO_THRESHOLD : ℚ := 1/10

def ALL_FACTORS : List String :=
  ["score_boundary", "score_hcc", "score_mcc", "score_lcc"]

def DEFAULT_WEIGHTS : List (String × ℚ) :=
  [("score_boundary", 9/10), ("score_hcc", 1/10)]

/-! ## Python dict operations used by `__init__`

`self.weights` is a Python dict; we embed it as an association list with
unique keys.  `dictGet` is dict lookup, `dictUpdate` is `dict.update`
(entries of `upd` override entries of `base`; fresh keys are appended). -/

def dictGet : List (String × ℚ) → String → Option ℚ
  | [], _ => none
  | p :: t, k => if p.1 = k then some p.2 else dictGet t k

def dictUpdate (base upd : List (String × ℚ)) : List (String × ℚ) :=
  base.map (fun p =>
    match dictGet upd p.1 with
    | some v => (p.1, v)
    | none => p) ++ upd.filter (fun p => (dictGet base p.1).isNone)

/-- Embedding of `GlowIndexCalculator.__init__`: the weights held after construction.
Python's `if weights:` is false both for `None` and for an empty dict, in
which case the defaults are used; otherwise the defaults are copied and
updated with the supplied mapping.  No renormalisation is performed. -/
def initWeights (w : Option (List (String × ℚ))) : List (String × ℚ) :=
  match w with
  | none => DEFAULT_WEIGHTS
  | some u => if u.isEmpty then DEFAULT_WEIGHTS else dictUpdate DEFAULT_WEIGHTS u

/-! ## Per-factor score functions -/

/-- Embedding of `_score_from_boundary_distance`: triangular score of the distance to the
cloud boundary. -/
def scoreFromBoundaryDistance (distance_km : ℚ) : ℚ :=
  if distance_km ≥ MAX_SEARCH_DISTANCE_KM then 0
  else if distance_km ≤ OPTIMAL_DISTANCE_KM then distance_km / OPTIMAL_DISTANCE_KM
  else max 0 (1 - (distance_km - OPTIMAL_DISTANCE_KM) /
      (MAX_SEARCH_DISTANCE_KM - OPTIMAL_DISTANCE_KM))

/-- Embedding of `_score_from_hcc`: piecewise score of the high-cloud cover fraction. -/
def scoreFromHcc (hcc : ℚ) : ℚ :=
  if 4/10 ≤ hcc ∧ hcc ≤ 8/10 then 1
  else if hcc > 8/10 then 7/10
  else if 1/10 ≤ hcc ∧ hcc < 4/10 then 6/10
  else 1/10

/-- Embedding of `_score_from_mcc`: piecewise score of the mid-cloud cover fraction. -/
def scoreFromMcc (mcc : ℚ) : ℚ :=
  if 2/10 ≤ mcc ∧ mcc ≤ 5/10 then 1
  else if 5/10 < mcc ∧ mcc ≤ 8/10 then 7/10
  else if mcc > 8/10 then 3/10
  else 2/10

/-- Embedding of `_score_from_lcc`: piecewise score of the low-cloud cover fraction. -/
def scoreFromLcc (lcc : ℚ) : ℚ :=
  if lcc ≤ 1/10 then 1
  else if 1/10 < lcc ∧ lcc ≤ 3/10 then 6/10
  else if 3/10 < lcc ∧ lcc ≤ 5/10 then 1/10
  else 0

/-! ## `calculate_for_point`

The data-dependent inputs of a single-point evaluation — the three local
interpolated cloud fractions returned by `_get_value_at_point` and the
boundary distance returned by `_find_cloud_boundary_distance` along the sun
azimuth — are collected in a `PointEnv`.  The returned dict of scores is a
`ScoreSet`; the `raySearched` flag records whether the control flow reached
the ray search (it is `false` exactly on the short-circuit branch, which in
the Python code returns before `_find_cloud_boundary_distance` is called). -/

structure ScoreSet where
  final_score : ℚ
  score_boundary : ℚ
  score_hcc : ℚ
  score_mcc : ℚ
  score_lcc : ℚ
deriving DecidableEq

structure PointEnv where
  hcc : ℚ
  mcc : ℚ
  lcc : ℚ
  boundaryDistance : ℚ
deriving DecidableEq

structure PointResult where
  scores : ScoreSet
  raySearched : Bool
deriving DecidableEq

def QUALITY_FACTORS : List String := ["score_boundary", "score_hcc"]

def BASE_FACTORS : List String := ["score_mcc", "score_lcc"]

/-- The `all_scores` dict built in `calculate_for_point`, as a total lookup
on the four fixed factor names. -/
def allScores (sb sh sm sl : ℚ) : String → ℚ := fun name =>
  if name = "score_boundary" then sb
  else if name = "score_hcc" then sh
  else if name = "score_mcc" then sm
  else sl

/-- The quality loop of `calculate_for_point`: fold over the quality factor
names accumulating `(weighted_quality_score_sum, total_quality_weight)`;
a factor contributes only when it is both in the requested subset and in the
weight dict. -/
def qualityFold (weights : List (String × ℚ)) (factors : List String)
    (score : String → ℚ) : ℚ × ℚ :=
  QUALITY_FACTORS.foldl (fun acc fname =>
    if fname ∈ factors then
      match dictGet weights fname with
      | some w => (acc.1 + score fname * w, acc.2 + w)
      | none => acc
    else acc) (0, 0)

/-- Computation of `quality_score = weighted_quality_score_sum / total_quality_weight if
total_quality_weight > 0 else 0.0`. -/
def qualityScore (weights : List (String × ℚ)) (factors : List String)
    (score : String → ℚ) : ℚ :=
  let acc := qualityFold weights factors score
  if 0 < acc.2 then acc.1 / acc.2 else 0

/-- The base/pass loop of `calculate_for_point`: product of the base factor
scores present in the requested subset, starting from `1.0`. -/
def baseScore (factors : List String) (score : String → ℚ) : ℚ :=
  BASE_FACTORS.foldl (fun acc fname =>
    if fname ∈ factors then acc * score fname else acc) 1

/-- Embedding of `GlowIndexCalculator.calculate_for_point`.  A `factors` argument of
`none` defaults to `ALL_FACTORS`; an invalid factor name raises
`ValueError`, modelled by `Except.error`. -/
def calculate_for_point (weights : List (String × ℚ)) (env : PointEnv)
    (factorsOpt : Option (List String)) : Except String PointResult :=
  let factors := factorsOpt.getD ALL_FACTORS
  if ∀ f ∈ factors, f ∈ ALL_FACTORS then
    if env.hcc < CLOUD_THRESHOLD then
      .ok ⟨⟨0, 0, 0, scoreFromMcc env.mcc, scoreFromLcc env.lcc⟩, false⟩
    else
      let sb := scoreFromBoundaryDistance env.boundaryDistance
      let sh := scoreFromHcc env.hcc
      let sm := scoreFromMcc env.mcc
      let sl := scoreFromLcc env.lcc
      let score := allScores sb sh sm sl
      let quality := qualityScore weights factors score
      let base := baseScore factors score
      .ok ⟨⟨quality * base, sb, sh, sm, sl⟩, true⟩
  else .error "invalid factor"

/-! ## The spec's combination rule, written from the spec's words

For comparison with the code: the spec partitions the factors into quality
factors (boundary distance, high-cloud morphology, mid-cloud morphology)
and penalty factors (low-cloud obstruction, aerosol haze), with
`quality_score` the weighted average over quality factors present in the
requested subset, `penalty_score` the product over penalty factors present,
and `final_score` their product. -/

def SPEC_QUALITY_FACTORS : List String :=
  ["score_boundary", "score_hcc", "score_mcc"]

def SPEC_PENALTY_FACTORS : List String := ["score_lcc", "score_aod550"]

def specFinalScore (weights : List (String × ℚ)) (factors : List String)
    (score : String → ℚ) : ℚ :=
  let qs := SPEC_QUALITY_FACTORS.filter (fun f => factors.contains f)
  let wsum := (qs.map (fun f => (dictGet weights f).getD 0)).sum
  let ssum := (qs.map (fun f => (dictGet weights f).getD 0 * score f)).sum
  let penalty := ((SPEC_PENALTY_FACTORS.filter (fun f => factors.contains f)).map score).prod
  (ssum / wsum) * penalty

/-- Positive scaling of a weight dict (helper for the amended claim C3). -/
def scaleWeights (c : ℚ) (w : List (String × ℚ)) : List (String × ℚ) :=
  w.map (fun p => (p.1, c * p.2))

/-- Sum of the weights held for the quality factors. -/
def qualityWeightSum (weights : List (String × ℚ)) : ℚ :=
  QUALITY_FACTORS.foldl (fun acc f => acc + (dictGet weights f).getD 0) 0

end Chromasky

namespace Chromasky

/-! ## Helper lemmas -/

theorem qualityFold_closed (weights : List (String × ℚ)) (factors : List String)
    (score : String → ℚ) :
    qualityFold weights factors score =
      (score "score_boundary"
          * (if "score_boundary" ∈ factors then (dictGet weights "score_boundary").getD 0 else 0)
        + score "score_hcc"
          * (if "score_hcc" ∈ factors then (dictGet weights "score_hcc").getD 0 else 0),
       (if "score_boundary" ∈ factors then (dictGet weights "score_boundary").getD 0 else 0)
        + (if "score_hcc" ∈ factors then (dictGet weights "score_hcc").getD 0 else 0)) := by
  unfold qualityFold QUALITY_FACTORS
  simp only [List.foldl]
  by_cases hb : "score_boundary" ∈ factors <;>
    by_cases hh : "score_hcc" ∈ factors <;>
    cases hgb : dictGet weights "score_boundary" <;>
    cases hgh : dictGet weights "score_hcc" <;>
    simp [hb, hh, hgb, hgh, mul_comm]

theorem dictGet_scaleWeights (c : ℚ) (w : List (String × ℚ)) (k : String) :
    dictGet (scaleWeights c w) k = (dictGet w k).map (fun v => c * v) := by
  induction w with
  | nil => rfl
  | cons p t ih =>
    by_cases hk : p.1 = k
    · simp [scaleWeights, dictGet, hk]
    · simpa [scaleWeights, dictGet, hk] using ih

/-- Claim C7: the boundary-distance score is triangular: it is `0` at
distance `0`, rises linearly to `1` at `optimal_distance_km = 400`, falls
linearly back to `0` at `max_search_distance_km = 500`, is `0` at or beyond
`500`, and is non-negative on all non-negative distances. -/
theorem C7_score_boundary_triangular (d : ℚ) (hd : 0 ≤ d) :
    scoreFromBoundaryDistance 0 = 0 ∧
    scoreFromBoundaryDistance OPTIMAL_DISTANCE_KM = 1 ∧
    (d ≤ OPTIMAL_DISTANCE_KM → scoreFromBoundaryDistance d = d / 400) ∧
    (OPTIMAL_DISTANCE_KM ≤ d → d ≤ MAX_SEARCH_DISTANCE_KM →
      scoreFromBoundaryDistance d = (500 - d) / 100) ∧
    (MAX_SEARCH_DISTANCE_KM ≤ d → scoreFromBoundaryDistance d = 0) ∧
    0 ≤ scoreFromBoundaryDistance d := by
  unfold scoreFromBoundaryDistance OPTIMAL_DISTANCE_KM MAX_SEARCH_DISTANCE_KM
  refine ⟨by norm_num, by norm_num, ?_, ?_, ?_, ?_⟩
  · intro h
    rw [if_neg (by linarith), if_pos h]
  · intro h₁ h₂
    rcases eq_or_lt_of_le h₂ with h₂ | h₂
    · rw [if_pos (le_of_eq h₂.symm)]
      rw [h₂]; norm_num
    · rcases eq_or_lt_of_le h₁ with h₁ | h₁
      · rw [if_neg (by linarith), if_pos (le_of_eq h₁.symm)]
        rw [← h₁]; norm_num
      · rw [if_neg (by linarith), if_neg (by linarith)]
        rw [max_eq_right (by linarith [(by linarith : (500 - d) / (100 : ℚ) ≥ 0)])]
        ring
  · intro h
    rw [if_pos h]
  · split
    · exact le_refl 0
    · split
      · positivity
      · exact le_max_left 0 _

/-- Witness for C7 at the concrete distance `200`. -/
theorem C7_score_boundary_triangular_witness :
    scoreFromBoundaryDistance 0 = 0 ∧
    scoreFromBoundaryDistance OPTIMAL_DISTANCE_KM = 1 ∧
    ((200 : ℚ) ≤ OPTIMAL_DISTANCE_KM → scoreFromBoundaryDistance 200 = 200 / 400) ∧
    (OPTIMAL_DISTANCE_KM ≤ (200 : ℚ) → (200 : ℚ) ≤ MAX_SEARCH_DISTANCE_KM →
      scoreFromBoundaryDistance 200 = (500 - 200) / 100) ∧
    (MAX_SEARCH_DISTANCE_KM ≤ (200 : ℚ) → scoreFromBoundaryDistance 200 = 0) ∧
    0 ≤ scoreFromBoundaryDistance 200 :=
  C7_score_boundary_triangular 200 (by norm_num)

/-- Claim C8: the high-cloud score follows the piecewise table with the exact
boundary inclusivity `[0.4,0.8] → 1.0`, `(0.8,1.0] → 0.7`, `[0.1,0.4) → 0.6`,
`[0,0.1) → 0.1`, and in particular takes the stated values at
`0.4`, `0.39`, `0.81` and `0.05`. -/
theorem C8_score_hcc_piecewise (h : ℚ) (h0 : 0 ≤ h) (h1 : h ≤ 1) :
    (4/10 ≤ h ∧ h ≤ 8/10 → scoreFromHcc h = 1) ∧
    (8/10 < h ∧ h ≤ 1 → scoreFromHcc h = 7/10) ∧
    (1/10 ≤ h ∧ h < 4/10 → scoreFromHcc h = 6/10) ∧
    (0 ≤ h ∧ h < 1/10 → scoreFromHcc h = 1/10) ∧
    scoreFromHcc (4/10) = 1 ∧ scoreFromHcc (39/100) = 6/10 ∧
    scoreFromHcc (81/100) = 7/10 ∧ scoreFromHcc (5/100) = 1/10 := by
  unfold scoreFromHcc
  refine ⟨?_, ?_, ?_, ?_, by norm_num, by norm_num, by norm_num, by norm_num⟩
  · intro hr
    rw [if_pos hr]
  · intro hr
    rw [if_neg (by push_neg; intro; linarith [hr.1]), if_pos hr.1]
  · intro hr
    rw [if_neg (by push_neg; intro; linarith [hr.2]),
      if_neg (by push_neg; linarith [hr.2]), if_pos hr]
  · intro hr
    rw [if_neg (by push_neg; intro; linarith [hr.2]),
      if_neg (by push_neg; linarith [hr.2]),
      if_neg (by push_neg; intro; linarith [hr.2])]

/-- Witness for C8 at the concrete fraction `0.4`. -/
theorem C8_score_hcc_piecewise_witness :
    ((4:ℚ)/10 ≤ 4/10 ∧ (4:ℚ)/10 ≤ 8/10 → scoreFromHcc (4/10) = 1) ∧
    ((8:ℚ)/10 < 4/10 ∧ (4:ℚ)/10 ≤ 1 → scoreFromHcc (4/10) = 7/10) ∧
    ((1:ℚ)/10 ≤ 4/10 ∧ (4:ℚ)/10 < 4/10 → scoreFromHcc (4/10) = 6/10) ∧
    ((0:ℚ) ≤ 4/10 ∧ (4:ℚ)/10 < 1/10 → scoreFromHcc (4/10) = 1/10) ∧
    scoreFromHcc (4/10) = 1 ∧ scoreFromHcc (39/100) = 6/10 ∧
    scoreFromHcc (81/100) = 7/10 ∧ scoreFromHcc (5/100) = 1/10 :=
  C8_score_hcc_piecewise (4/10) (by norm_num) (by norm_num)

end Chromasky

namespace Chromasky

/-- Claim C2: when the interpolated local high-cloud fraction is below
`clear_threshold = 0.1`, `calculate_for_point` returns `final_score = 0`,
`score_boundary = 0` and `score_hcc = 0` regardless of the mcc/lcc values,
still computes and reports `score_mcc` and `score_lcc` from the local field
values, and skips the ray search entirely (`raySearched = false`). -/
theorem C2_short_circuit (weights : List (String × ℚ)) (env : PointEnv)
    (factorsOpt : Option (List String))
    (hvalid : ∀ f ∈ factorsOpt.getD ALL_FACTORS, f ∈ ALL_FACTORS)
    (hsc : env.hcc < CLOUD_THRESHOLD) :
    calculate_for_point weights env factorsOpt =
      .ok ⟨⟨0, 0, 0, scoreFromMcc env.mcc, scoreFromLcc env.lcc⟩, false⟩ := by
  unfold calculate_for_point
  rw [if_pos hvalid, if_pos hsc]

/-- Witness for C2 at a concrete point with `hcc = 0.05 < 0.1`. -/
theorem C2_short_circuit_witness :
    calculate_for_point DEFAULT_WEIGHTS ⟨1/20, 3/10, 1/2, 100⟩ none =
      .ok ⟨⟨0, 0, 0, scoreFromMcc (3/10), scoreFromLcc (1/2)⟩, false⟩ :=
  C2_short_circuit DEFAULT_WEIGHTS ⟨1/20, 3/10, 1/2, 100⟩ none
    (fun _ h => h) (by norm_num [CLOUD_THRESHOLD])

/-- Claim C10 (the guarded division): if the requested factor subset contains
neither `score_boundary` nor `score_hcc`, the guard on the division makes
`quality_score` equal `0`, and therefore `final_score = 0` for every
non-short-circuited point regardless of the mid- and low-cloud scores. -/
theorem C10_no_quality_factor_guard (weights : List (String × ℚ)) (env : PointEnv)
    (factors : List String)
    (hvalid : ∀ f ∈ factors, f ∈ ALL_FACTORS)
    (hb : "score_boundary" ∉ factors) (hh : "score_hcc" ∉ factors)
    (hsc : ¬ env.hcc < CLOUD_THRESHOLD) :
    qualityScore weights factors
      (allScores (scoreFromBoundaryDistance env.boundaryDistance)
        (scoreFromHcc env.hcc) (scoreFromMcc env.mcc) (scoreFromLcc env.lcc)) = 0 ∧
    calculate_for_point weights env (some factors) =
      .ok ⟨⟨0, scoreFromBoundaryDistance env.boundaryDistance, scoreFromHcc env.hcc,
        scoreFromMcc env.mcc, scoreFromLcc env.lcc⟩, true⟩ := by
  have hq : qualityScore weights factors
      (allScores (scoreFromBoundaryDistance env.boundaryDistance)
        (scoreFromHcc env.hcc) (scoreFromMcc env.mcc) (scoreFromLcc env.lcc)) = 0 := by
    unfold qualityScore
    rw [qualityFold_closed]
    simp [hb, hh]
  refine ⟨hq, ?_⟩
  have hvalid' : ∀ f ∈ (some factors).getD ALL_FACTORS, f ∈ ALL_FACTORS := by
    simpa using hvalid
  unfold calculate_for_point
  rw [if_pos hvalid', if_neg hsc]
  dsimp only
  have hq' : qualityScore weights ((some factors).getD ALL_FACTORS)
      (allScores (scoreFromBoundaryDistance env.boundaryDistance)
        (scoreFromHcc env.hcc) (scoreFromMcc env.mcc) (scoreFromLcc env.lcc)) = 0 := by
    simpa using hq
  rw [hq', zero_mul]

/-- Witness for C10 with the factor subset `["score_mcc", "score_lcc"]`. -/
theorem C10_no_quality_factor_guard_witness :
    qualityScore DEFAULT_WEIGHTS ["score_mcc", "score_lcc"]
      (allScores (scoreFromBoundaryDistance 100) (scoreFromHcc (1/2))
        (scoreFromMcc 0) (scoreFromLcc 0)) = 0 ∧
    calculate_for_point DEFAULT_WEIGHTS ⟨1/2, 0, 0, 100⟩
        (some ["score_mcc", "score_lcc"]) =
      .ok ⟨⟨0, scoreFromBoundaryDistance 100, scoreFromHcc (1/2),
        scoreFromMcc 0, scoreFromLcc 0⟩, true⟩ :=
  C10_no_quality_factor_guard DEFAULT_WEIGHTS ⟨1/2, 0, 0, 100⟩
    ["score_mcc", "score_lcc"] (by decide) (by decide) (by decide)
    (by norm_num [CLOUD_THRESHOLD])

/-- Counterexample to claim C1 as stated: at the point with local
`hcc = 0.5`, `mcc = 0`, `lcc = 0` and boundary distance `500`, with the
default weights and all factors requested, the code computes
`final_score = 1/50` (quality average over boundary and hcc only, times the
product of the mcc and lcc scores), whereas the spec's combination rule
(mid-cloud as a quality factor, only lcc/aod as penalties) gives `1/10`. -/
theorem C1_counterexample :
    calculate_for_point DEFAULT_WEIGHTS ⟨1/2, 0, 0, 500⟩ none =
      .ok ⟨⟨1/50, 0, 1, 1/5, 1⟩, true⟩ ∧
    specFinalScore DEFAULT_WEIGHTS ALL_FACTORS
      (allScores (scoreFromBoundaryDistance 500) (scoreFromHcc (1/2))
        (scoreFromMcc 0) (scoreFromLcc 0)) = 1/10 ∧
    (1/50 : ℚ) ≠ 1/10 := by
  refine ⟨?_, ?_, by norm_num⟩
  · simp +decide only [calculate_for_point, ALL_FACTORS, DEFAULT_WEIGHTS, CLOUD_THRESHOLD,
      scoreFromBoundaryDistance, scoreFromHcc, scoreFromMcc, scoreFromLcc,
      qualityScore, qualityFold, QUALITY_FACTORS, baseScore, BASE_FACTORS,
      allScores, dictGet, MAX_SEARCH_DISTANCE_KM, OPTIMAL_DISTANCE_KM,
      List.foldl, List.mem_cons, Option.getD, Option.map, List.not_mem_nil]
    norm_num
  · simp +decide only [specFinalScore, SPEC_QUALITY_FACTORS, SPEC_PENALTY_FACTORS, ALL_FACTORS,
      DEFAULT_WEIGHTS, scoreFromBoundaryDistance, scoreFromHcc, scoreFromMcc, scoreFromLcc,
      allScores, dictGet, List.filter, MAX_SEARCH_DISTANCE_KM, OPTIMAL_DISTANCE_KM,
      List.map, List.sum_cons, List.prod_cons, List.sum_nil, List.prod_nil, Option.map, Option.getD]
    norm_num

/-- Claim C1 as amended: for every point evaluated without the
short-circuit, `calculate_for_point` partitions the factors into quality
factors `score_boundary` and `score_hcc` (weighted average over those
present in the requested subset and carrying a weight, `0` when the total
present weight is not positive) and multiplicative base factors `score_mcc`
and `score_lcc` (product over those present), and returns
`final_score = quality_score × base_score`; there is no aerosol factor. -/
theorem C1_hybrid_combination (weights : List (String × ℚ)) (env : PointEnv)
    (factorsOpt : Option (List String))
    (hvalid : ∀ f ∈ factorsOpt.getD ALL_FACTORS, f ∈ ALL_FACTORS)
    (hsc : ¬ env.hcc < CLOUD_THRESHOLD) :
    calculate_for_point weights env factorsOpt =
      .ok ⟨⟨(let factors := factorsOpt.getD ALL_FACTORS
             let sb := scoreFromBoundaryDistance env.boundaryDistance
             let sh := scoreFromHcc env.hcc
             let wb := if "score_boundary" ∈ factors
               then (dictGet weights "score_boundary").getD 0 else 0
             let wh := if "score_hcc" ∈ factors
               then (dictGet weights "score_hcc").getD 0 else 0
             let q := if 0 < wb + wh then (sb * wb + sh * wh) / (wb + wh) else 0
             let pm := if "score_mcc" ∈ factors then scoreFromMcc env.mcc else 1
             let pl := if "score_lcc" ∈ factors then scoreFromLcc env.lcc else 1
             q * (pm * pl)),
        scoreFromBoundaryDistance env.boundaryDistance, scoreFromHcc env.hcc,
        scoreFromMcc env.mcc, scoreFromLcc env.lcc⟩, true⟩ := by
  have key : ∀ (factors : List String) (sb sh sm sl : ℚ),
      qualityScore weights factors (allScores sb sh sm sl) *
        baseScore factors (allScores sb sh sm sl) =
      (let wb := if "score_boundary" ∈ factors
         then (dictGet weights "score_boundary").getD 0 else 0
       let wh := if "score_hcc" ∈ factors
         then (dictGet weights "score_hcc").getD 0 else 0
       let q := if 0 < wb + wh then (sb * wb + sh * wh) / (wb + wh) else 0
       let pm := if "score_mcc" ∈ factors then sm else 1
       let pl := if "score_lcc" ∈ factors then sl else 1
       q * (pm * pl)) := by
    intro factors sb sh sm sl
    unfold qualityScore baseScore BASE_FACTORS
    rw [qualityFold_closed]
    simp +decide only [allScores, List.foldl]
    by_cases hm : "score_mcc" ∈ factors <;>
      by_cases hl : "score_lcc" ∈ factors <;>
      simp only [hm, hl, if_true, if_false, ite_true, ite_false, one_mul, mul_one]
  unfold calculate_for_point
  rw [if_pos hvalid, if_neg hsc]
  dsimp only
  rw [key (factorsOpt.getD ALL_FACTORS) (scoreFromBoundaryDistance env.boundaryDistance)
    (scoreFromHcc env.hcc) (scoreFromMcc env.mcc) (scoreFromLcc env.lcc)]

/-- Witness for the amended C1 at a concrete non-short-circuited point. -/
theorem C1_hybrid_combination_witness :
    calculate_for_point DEFAULT_WEIGHTS ⟨1/2, 3/10, 0, 400⟩ none =
      .ok ⟨⟨(let factors := (none (α := List String)).getD ALL_FACTORS
             let sb := scoreFromBoundaryDistance 400
             let sh := scoreFromHcc (1/2)
             let wb := if "score_boundary" ∈ factors
               then (dictGet DEFAULT_WEIGHTS "score_boundary").getD 0 else 0
             let wh := if "score_hcc" ∈ factors
               then (dictGet DEFAULT_WEIGHTS "score_hcc").getD 0 else 0
             let q := if 0 < wb + wh then (sb * wb + sh * wh) / (wb + wh) else 0
             let pm := if "score_mcc" ∈ factors then scoreFromMcc (3/10) else 1
             let pl := if "score_lcc" ∈ factors then scoreFromLcc 0 else 1
             q * (pm * pl)),
        scoreFromBoundaryDistance 400, scoreFromHcc (1/2),
        scoreFromMcc (3/10), scoreFromLcc 0⟩, true⟩ :=
  C1_hybrid_combination DEFAULT_WEIGHTS ⟨1/2, 3/10, 0, 400⟩ none
    (fun _ h => h) (by norm_num [CLOUD_THRESHOLD])

end Chromasky

namespace Chromasky

theorem getD_map_mul (c : ℚ) (o : Option ℚ) :
    ((o.map (fun v => c * v)).getD 0) = c * o.getD 0 := by
  cases o <;> simp

theorem qualityFold_scaleWeights (c : ℚ) (weights : List (String × ℚ))
    (factors : List String) (score : String → ℚ) :
    qualityFold (scaleWeights c weights) factors score =
      (c * (qualityFold weights factors score).1,
       c * (qualityFold weights factors score).2) := by
  rw [qualityFold_closed, qualityFold_closed, dictGet_scaleWeights,
    dictGet_scaleWeights, getD_map_mul, getD_map_mul]
  simp only [Prod.mk.injEq]
  constructor <;> split_ifs <;> ring

theorem qualityScore_scaleWeights (c : ℚ) (hc : 0 < c)
    (weights : List (String × ℚ)) (factors : List String) (score : String → ℚ) :
    qualityScore (scaleWeights c weights) factors score =
      qualityScore weights factors score := by
  unfold qualityScore
  rw [qualityFold_scaleWeights]
  dsimp only
  by_cases hw : 0 < (qualityFold weights factors score).2
  · rw [if_pos (by nlinarith), if_pos hw, mul_div_mul_left _ _ (ne_of_gt hc)]
  · rw [if_neg (fun h => hw (by nlinarith)), if_neg hw]

/-- Counterexample to claim C3 as stated: supplying the positive weight
mapping `{"score_boundary": 2}` leaves the constructed calculator holding
quality weights `{"score_boundary": 2, "score_hcc": 0.1}`, which sum to
`2.1`, not `1.0`: the constructor performs no renormalization. -/
theorem C3_counterexample :
    (0:ℚ) < 2 ∧
    initWeights (some [("score_boundary", 2)]) =
      [("score_boundary", 2), ("score_hcc", 1/10)] ∧
    qualityWeightSum (initWeights (some [("score_boundary", 2)])) = 21/10 ∧
    (21/10 : ℚ) ≠ 1 := by
  refine ⟨by norm_num, ?_, ?_, by norm_num⟩
  · simp +decide only [initWeights, dictUpdate, DEFAULT_WEIGHTS, dictGet,
      List.isEmpty, List.filter, List.map, Option.isNone, if_true, if_false,
      ite_true, ite_false, List.cons_append, List.nil_append]
  · simp +decide only [qualityWeightSum, initWeights, dictUpdate, DEFAULT_WEIGHTS,
      QUALITY_FACTORS, dictGet, List.filter, List.foldl, List.map, List.isEmpty,
      Option.map, Option.getD, Option.isNone, if_true, if_false, ite_true, ite_false,
      List.append_nil, List.cons_append, List.nil_append]
    norm_num

/-- Claim C3 as amended: the constructor stores the supplied weights merged
over the defaults, without renormalizing or rejecting them; the
quality-factor weights sum to `1.0` when no custom weights are supplied
(default configuration), and no renormalization is needed because
`calculate_for_point` divides by the total present quality weight, making
its result invariant under positive scaling of the whole weight mapping. -/
theorem C3_weights_merged_not_renormalized :
    qualityWeightSum (initWeights none) = 1 ∧
    (∀ u : List (String × ℚ), ¬u.isEmpty →
      initWeights (some u) = dictUpdate DEFAULT_WEIGHTS u) ∧
    (∀ (c : ℚ) (weights : List (String × ℚ)) (env : PointEnv)
        (factorsOpt : Option (List String)), 0 < c →
      calculate_for_point (scaleWeights c weights) env factorsOpt =
        calculate_for_point weights env factorsOpt) := by
  refine ⟨?_, ?_, ?_⟩
  · simp +decide only [qualityWeightSum, initWeights, DEFAULT_WEIGHTS,
      QUALITY_FACTORS, dictGet, List.foldl, Option.getD]
    norm_num
  · intro u hu
    simp [initWeights, List.isEmpty_iff] at hu ⊢
    intro h
    exact absurd h hu
  · intro c weights env factorsOpt hc
    unfold calculate_for_point
    simp only [qualityScore_scaleWeights c hc]

/-- Witness for the amended C3: doubling the default weights does not change
the result of a concrete point evaluation. -/
theorem C3_weights_merged_not_renormalized_witness :
    calculate_for_point (scaleWeights 2 DEFAULT_WEIGHTS) ⟨1/2, 0, 0, 400⟩ none =
      calculate_for_point DEFAULT_WEIGHTS ⟨1/2, 0, 0, 400⟩ none :=
  C3_weights_merged_not_renormalized.2.2 2 DEFAULT_WEIGHTS ⟨1/2, 0, 0, 400⟩ none
    (by norm_num)

end Chromasky

namespace Chromasky

/-! ## `_find_cloud_boundary_distance`

`num_steps = int(MAX_SEARCH_DISTANCE_KM / SEARCH_STEP_KM)` and
`distances = np.linspace(SEARCH_STEP_KM, MAX_SEARCH_DISTANCE_KM, num_steps)`.
The geodesic projection feeds only the batched xarray interpolation of the
`hcc` field, so projection and interpolation together are modelled as an
oracle `sampleRay` mapping the list of sample distances to the list of
interpolated high-cloud values (`Except.error` when the interpolation
raises). -/

def num_steps : ℕ := ⌊MAX_SEARCH_DISTANCE_KM / SEARCH_STEP_KM⌋.toNat

/-- Embedding of `np.linspace a b n` (with endpoint): entry `i` is `a + i·(b-a)/(n-1)`. -/
def linspace (a b : ℚ) (n : ℕ) : List ℚ :=
  (List.range n).map (fun i : ℕ => a + (i : ℚ) * (b - a) / ((n : ℚ) - 1))

def boundary_distances : List ℚ :=
  linspace SEARCH_STEP_KM MAX_SEARCH_DISTANCE_KM num_steps

def findCloudBoundaryDistance (sampleRay : List ℚ → Except Unit (List ℚ)) : ℚ :=
  match sampleRay boundary_distances with
  | .error _ => SEARCH_STEP_KM
  | .ok hcc_on_ray =>
    match hcc_on_ray.findIdx? (fun v => decide (v < CLOUD_ZERO_THRESHOLD)) with
    | some idx => boundary_distances.getD idx 0
    | none => MAX_SEARCH_DISTANCE_KM

theorem num_steps_eq : num_steps = 50 := by
  unfold num_steps MAX_SEARCH_DISTANCE_KM SEARCH_STEP_KM
  norm_num
  rfl

theorem boundary_distances_eq :
    boundary_distances =
      (List.range 50).map (fun i : ℕ => ((i : ℚ) + 1) * SEARCH_STEP_KM) := by
  unfold boundary_distances linspace
  rw [num_steps_eq]
  refine List.map_congr_left ?_
  intro i hi
  unfold SEARCH_STEP_KM MAX_SEARCH_DISTANCE_KM
  field_simp
  ring

theorem boundary_distances_getD (idx : ℕ) (h : idx < 50) :
    boundary_distances.getD idx 0 = ((idx : ℚ) + 1) * SEARCH_STEP_KM := by
  simp [boundary_distances_eq, List.getD_eq_getElem?_getD, List.getElem?_map,
    List.getElem?_range h]

/-- Claim C4: the boundary search samples the high-cloud field at exactly the
ordered distances `step, 2·step, …, max_search_distance_km` (the 50 multiples
of 10 km up to 500 km); it returns the distance of the first sample strictly
below `clear_threshold`; if no sample is below the threshold it returns
`max_search_distance_km`; and if the batched interpolation raises it returns
`search_step_km`. -/
theorem C4_boundary_search (sampleRay : List ℚ → Except Unit (List ℚ)) :
    boundary_distances =
      (List.range 50).map (fun i : ℕ => ((i : ℚ) + 1) * SEARCH_STEP_KM) ∧
    (∀ e, sampleRay boundary_distances = .error e →
      findCloudBoundaryDistance sampleRay = SEARCH_STEP_KM) ∧
    (∀ vs, sampleRay boundary_distances = .ok vs → vs.length = 50 →
      (∀ idx (h : idx < vs.length), vs.get ⟨idx, h⟩ < CLOUD_ZERO_THRESHOLD →
        (∀ j (hj : j < vs.length), j < idx →
          ¬ vs.get ⟨j, hj⟩ < CLOUD_ZERO_THRESHOLD) →
        findCloudBoundaryDistance sampleRay = ((idx : ℚ) + 1) * SEARCH_STEP_KM) ∧
      ((∀ v ∈ vs, ¬ v < CLOUD_ZERO_THRESHOLD) →
        findCloudBoundaryDistance sampleRay = MAX_SEARCH_DISTANCE_KM)) := by
  refine ⟨boundary_distances_eq, ?_, ?_⟩
  · intro e he
    unfold findCloudBoundaryDistance
    rw [he]
  · intro vs hvs hlen
    constructor
    · intro idx h hbelow hmin
      have hfind : vs.findIdx? (fun v => decide (v < CLOUD_ZERO_THRESHOLD)) = some idx := by
        rw [List.findIdx?_eq_some_iff_getElem]
        refine ⟨h, by simpa using hbelow, ?_⟩
        intro j hji
        simpa using hmin j (Nat.lt_trans hji h) hji
      unfold findCloudBoundaryDistance
      rw [hvs]
      simp only [hfind]
      exact boundary_distances_getD idx (hlen ▸ h)
    · intro hall
      have hfind : vs.findIdx? (fun v => decide (v < CLOUD_ZERO_THRESHOLD)) = none := by
        rw [List.findIdx?_eq_none_iff]
        intro x hx
        simpa using hall x hx
      unfold findCloudBoundaryDistance
      rw [hvs]
      simp only [hfind]

/-- Witness for C4: on a ray whose samples are all zero, the first sample is
already below the clear threshold, so the search returns the first distance,
`(0 + 1) · search_step_km = 10`. -/
theorem C4_boundary_search_witness :
    findCloudBoundaryDistance
        (fun _ => (Except.ok (List.replicate 50 (0:ℚ)) : Except Unit (List ℚ))) =
      (((0:ℕ) : ℚ) + 1) * SEARCH_STEP_KM := by
  have h := ((C4_boundary_search
      (fun _ => (Except.ok (List.replicate 50 (0:ℚ)) : Except Unit (List ℚ)))).2.2
    (List.replicate 50 (0:ℚ)) rfl (by simp)).1
  refine h 0 (by simp) ?_ ?_
  · simp [CLOUD_ZERO_THRESHOLD]
  · intro j hj hj0
    omega

end Chromasky

namespace Chromasky

/-! ## `AstronomyService._calculate_single_event_time`

Instants are UTC timestamps in whole seconds (`ℤ`); the UTC calendar date of
a timestamp `t` is `t / 86400` (floor division, as `/` on `ℤ`).  The search
start (`observer.date`) is 00:00 UTC of the target date.  The `ephem`
solver (`observer.next_rising` / `observer.next_setting`) is modelled as an
oracle from the search-start timestamp to either an event timestamp or a
raised error (`AlwaysUpError` / `NeverUpError` for circumpolar conditions,
or any other exception). -/

inductive EphemError where
  | alwaysUp
  | neverUp
  | other (msg : String)
deriving DecidableEq

def SECONDS_PER_DAY : ℤ := 86400

/-- Embedding of `_calculate_single_event_time`: every raised solver error is caught and
converted to `none`; a computed occurrence whose UTC calendar date differs
from the target date is discarded as `none`. -/
def calculateSingleEventTime (nextEvent : ℤ → Except EphemError ℤ)
    (targetDate : ℤ) : Option ℤ :=
  match nextEvent (targetDate * SECONDS_PER_DAY) with
  | .error _ => none
  | .ok t => if t / SECONDS_PER_DAY ≠ targetDate then none else some t

/-- Claim C5: the single-event computation fails closed.  Every solver
failure (circumpolar `AlwaysUpError`/`NeverUpError` or any unexpected
exception) yields `none` rather than propagating; an occurrence whose UTC
calendar date differs from the requested date yields `none`; and whenever a
time is returned it is the solver's result and lies inside the 24-hour
window starting at 00:00 UTC of the requested date. -/
theorem C5_event_time_fails_closed (nextEvent : ℤ → Except EphemError ℤ)
    (targetDate : ℤ) :
    (∀ e, nextEvent (targetDate * SECONDS_PER_DAY) = .error e →
      calculateSingleEventTime nextEvent targetDate = none) ∧
    (∀ t, nextEvent (targetDate * SECONDS_PER_DAY) = .ok t →
      t / SECONDS_PER_DAY ≠ targetDate →
      calculateSingleEventTime nextEvent targetDate = none) ∧
    (∀ t, calculateSingleEventTime nextEvent targetDate = some t →
      nextEvent (targetDate * SECONDS_PER_DAY) = .ok t ∧
      targetDate * SECONDS_PER_DAY ≤ t ∧
      t < (targetDate + 1) * SECONDS_PER_DAY) := by
  refine ⟨?_, ?_, ?_⟩
  · intro e he
    unfold calculateSingleEventTime
    rw [he]
  · intro t ht hdate
    unfold calculateSingleEventTime
    rw [ht]
    simp only [if_pos hdate]
  · intro t hres
    unfold calculateSingleEventTime at hres
    cases hne : nextEvent (targetDate * SECONDS_PER_DAY) with
    | error e => rw [hne] at hres; exact absurd hres (by simp)
    | ok t' =>
      rw [hne] at hres
      dsimp only at hres
      by_cases hd : t' / SECONDS_PER_DAY ≠ targetDate
      · rw [if_pos hd] at hres
        exact absurd hres (by simp)
      · rw [if_neg hd] at hres
        have ht' : t' = t := by simpa using hres
        subst ht'
        push_neg at hd
        refine ⟨rfl, ?_, ?_⟩
        · have := (Int.le_ediv_iff_mul_le
            (show (0:ℤ) < SECONDS_PER_DAY by norm_num [SECONDS_PER_DAY])).mp
            (le_of_eq hd.symm)
          exact this
        · have := Int.lt_ediv_add_one_mul_self t'
            (show (0:ℤ) < SECONDS_PER_DAY by norm_num [SECONDS_PER_DAY])
          rw [hd] at this
          exact this

/-- Witness for C5: a solver that finds the event one hour after the search
start, on date 0. -/
theorem C5_event_time_fails_closed_witness :
    (fun s : ℤ => (Except.ok (s + 3600) : Except EphemError ℤ)) (0 * SECONDS_PER_DAY) =
      .ok 3600 ∧
    (0 : ℤ) * SECONDS_PER_DAY ≤ 3600 ∧ (3600 : ℤ) < (0 + 1) * SECONDS_PER_DAY :=
  (C5_event_time_fails_closed (fun s => .ok (s + 3600)) 0).2.2 3600 (by decide)

/-! ## `calculate_for_grid`

The output dataset is zero-initialised over the full grid; one task per
active index computes the point scores; collection writes each successful
result back, while a task that raised is only logged.  The per-task
evaluation (`_calculate_for_single_index` → `calculate_for_point` at the
cell's coordinates) is modelled as an oracle from the grid index to either
a `ScoreSet` or a raised exception. -/

def zeroScores : ScoreSet := ⟨0, 0, 0, 0, 0⟩

/-- One result-collection step of `calculate_for_grid`: a successful task
writes its scores at its own index, a failed task leaves the grid
untouched. -/
def gridStep (taskResult : ℕ × ℕ → Except String ScoreSet)
    (acc : ℕ × ℕ → ScoreSet) (ij : ℕ × ℕ) : ℕ × ℕ → ScoreSet :=
  match taskResult ij with
  | .ok s => Function.update acc ij s
  | .error _ => acc

def calculate_for_grid (taskResult : ℕ × ℕ → Except String ScoreSet)
    (active : List (ℕ × ℕ)) : ℕ × ℕ → ScoreSet :=
  active.foldl (gridStep taskResult) (fun _ => zeroScores)

theorem grid_foldl_not_mem (taskResult : ℕ × ℕ → Except String ScoreSet)
    (active : List (ℕ × ℕ)) (init : ℕ × ℕ → ScoreSet) (ij : ℕ × ℕ)
    (h : ij ∉ active) :
    active.foldl (gridStep taskResult) init ij = init ij := by
  induction active generalizing init with
  | nil => rfl
  | cons a t ih =>
    have ha : ij ≠ a := fun hc => h (hc ▸ List.mem_cons_self a t)
    have ht : ij ∉ t := fun hc => h (List.mem_cons_of_mem a hc)
    rw [List.foldl_cons, ih _ ht]
    unfold gridStep
    cases taskResult a with
    | ok s => exact Function.update_noteq ha s init
    | error e => rfl

theorem grid_foldl_error (taskResult : ℕ × ℕ → Except String ScoreSet)
    (active : List (ℕ × ℕ)) (init : ℕ × ℕ → ScoreSet) (ij : ℕ × ℕ) (e : String)
    (h : taskResult ij = .error e) :
    active.foldl (gridStep taskResult) init ij = init ij := by
  induction active generalizing init with
  | nil => rfl
  | cons a t ih =>
    rw [List.foldl_cons, ih]
    unfold gridStep
    by_cases ha : ij = a
    · subst ha
      rw [h]
    · cases taskResult a with
      | ok s => exact Function.update_noteq ha s init
      | error e' => rfl

theorem grid_foldl_ok (taskResult : ℕ × ℕ → Except String ScoreSet)
    (active : List (ℕ × ℕ)) (init : ℕ × ℕ → ScoreSet) (ij : ℕ × ℕ) (s : ScoreSet)
    (hmem : ij ∈ active) (h : taskResult ij = .ok s) :
    active.foldl (gridStep taskResult) init ij = s := by
  induction active generalizing init with
  | nil => exact absurd hmem (List.not_mem_nil ij)
  | cons a t ih =>
    rw [List.foldl_cons]
    by_cases hts : ij ∈ t
    · exact ih _ hts
    · have ha : ij = a := by
        rcases List.mem_cons.mp hmem with h' | h'
        · exact h'
        · exact absurd h' hts
      subst ha
      rw [grid_foldl_not_mem _ _ _ _ hts]
      unfold gridStep
      rw [h]
      exact Function.update_same ij s init

/-- Claim C6: failure isolation in the grid evaluation.  A cell outside the
active set keeps its zero-initialised default; an active cell whose task
raised keeps its zero-initialised default; and every other active cell whose
task succeeded still receives its computed scores — a single failing task
never aborts the batch. -/
theorem C6_failure_isolation (taskResult : ℕ × ℕ → Except String ScoreSet)
    (active : List (ℕ × ℕ)) (ij : ℕ × ℕ) :
    (ij ∉ active → calculate_for_grid taskResult active ij = zeroScores) ∧
    (∀ e, taskResult ij = .error e →
      calculate_for_grid taskResult active ij = zeroScores) ∧
    (∀ s, ij ∈ active → taskResult ij = .ok s →
      calculate_for_grid taskResult active ij = s) := by
  refine ⟨?_, ?_, ?_⟩
  · intro h
    exact grid_foldl_not_mem taskResult active _ ij h
  · intro e he
    exact grid_foldl_error taskResult active _ ij e he
  · intro s hmem hok
    exact grid_foldl_ok taskResult active _ ij s hmem hok

/-- Witness for C6: with cell `(0,0)` failing and cell `(1,1)` succeeding,
cell `(0,0)` stays at the zero default and cell `(1,1)` still receives its
result. -/
theorem C6_failure_isolation_witness :
    calculate_for_grid
      (fun ij => if ij = (0, 0) then .error "boom" else .ok ⟨1, 1, 1, 1, 1⟩)
      [(0, 0), (1, 1)] (0, 0) = zeroScores ∧
    calculate_for_grid
      (fun ij => if ij = (0, 0) then .error "boom" else .ok ⟨1, 1, 1, 1, 1⟩)
      [(0, 0), (1, 1)] (1, 1) = ⟨1, 1, 1, 1, 1⟩ :=
  ⟨(C6_failure_isolation _ [(0, 0), (1, 1)] (0, 0)).2.1 "boom" rfl,
   (C6_failure_isolation _ [(0, 0), (1, 1)] (1, 1)).2.2 ⟨1, 1, 1, 1, 1⟩
     (by simp) rfl⟩

end Chromasky

namespace Chromasky

/-! ## `_calculate_destination_point_vectorized`

The spherical direct-geodesic formula, over `ℝ`.  The Python function is
vectorized over the distance array by elementwise `numpy` operations, so it
is embedded at a single distance.  `numpy.arctan2` is the standard
two-argument arctangent (without signed zeros). -/

def EARTH_RADIUS_KM : ℝ := 6371

noncomputable def radians (x : ℝ) : ℝ := x * (Real.pi / 180)

noncomputable def degrees (x : ℝ) : ℝ := x * (180 / Real.pi)

noncomputable def arctan2 (y x : ℝ) : ℝ :=
  if 0 < x then Real.arctan (y / x)
  else if x < 0 then
    (if 0 ≤ y then Real.arctan (y / x) + Real.pi else Real.arctan (y / x) - Real.pi)
  else (if 0 < y then Real.pi / 2 else if y < 0 then -(Real.pi / 2) else 0)

noncomputable def calculateDestinationPoint
    (lat lon bearing_deg distance_km : ℝ) : ℝ × ℝ :=
  let lat_rad := radians lat
  let lon_rad := radians lon
  let bearing_rad := radians bearing_deg
  let angular_distance := distance_km / EARTH_RADIUS_KM
  let dest_lat_rad := Real.arcsin (Real.sin lat_rad * Real.cos angular_distance +
    Real.cos lat_rad * Real.sin angular_distance * Real.cos bearing_rad)
  let dest_lon_rad := lon_rad + arctan2
    (Real.sin bearing_rad * Real.sin angular_distance * Real.cos lat_rad)
    (Real.cos angular_distance - Real.sin lat_rad * Real.sin dest_lat_rad)
  (degrees dest_lat_rad, degrees dest_lon_rad)

theorem arctan2_zero_nonneg (x : ℝ) (hx : 0 ≤ x) : arctan2 0 x = 0 := by
  unfold arctan2
  rcases lt_or_eq_of_le hx with h | h
  · rw [if_pos h, zero_div, Real.arctan_zero]
  · rw [if_neg (by rw [← h]; exact lt_irrefl 0),
      if_neg (by rw [← h]; exact lt_irrefl 0)]
    simp

/-- Claim C9: for every latitude in `[-90, 90]`, every longitude and every
bearing, the geodesic destination at distance `0` is the origin itself. -/
theorem C9_destination_zero_distance (lat lon bearing : ℝ)
    (h1 : -90 ≤ lat) (h2 : lat ≤ 90) :
    calculateDestinationPoint lat lon bearing 0 = (lat, lon) := by
  have hpi := Real.pi_pos
  have hb1 : -(Real.pi / 2) ≤ lat * (Real.pi / 180) := by nlinarith
  have hb2 : lat * (Real.pi / 180) ≤ Real.pi / 2 := by nlinarith
  unfold calculateDestinationPoint radians degrees EARTH_RADIUS_KM
  dsimp only
  rw [zero_div, Real.sin_zero, Real.cos_zero]
  rw [show Real.sin (lat * (Real.pi / 180)) * 1 +
      Real.cos (lat * (Real.pi / 180)) * 0 * Real.cos (bearing * (Real.pi / 180)) =
      Real.sin (lat * (Real.pi / 180)) from by ring]
  rw [Real.arcsin_sin hb1 hb2]
  rw [show Real.sin (bearing * (Real.pi / 180)) * 0 *
      Real.cos (lat * (Real.pi / 180)) = 0 from by ring]
  rw [arctan2_zero_nonneg _ (by
    nlinarith [Real.sin_le_one (lat * (Real.pi / 180)),
      Real.neg_one_le_sin (lat * (Real.pi / 180))])]
  rw [add_zero]
  have hc : ∀ z : ℝ, z * (Real.pi / 180) * (180 / Real.pi) = z := by
    intro z
    field_simp
  rw [hc, hc]

/-- Witness for C9 at the origin `(0, 0)` with bearing `0`. -/
theorem C9_destination_zero_distance_witness :
    calculateDestinationPoint 0 0 0 0 = (0, 0) :=
  C9_destination_zero_distance 0 0 0 (by norm_num) (by norm_num)

end Chromasky
